import Mathlib

/-!
# EcoWise backend — verification of the specification against the code

Shallow embedding of `src/backend/server.js` (an Express + SQLite backend):
the users and history tables, the response JSON values, the authentication
middleware, the JWT issue/verify semantics (as used via `jsonwebtoken` with
a seven-day expiry), the aggregation read path, the leaderboard, the history
listing, the admin gate, and the CSV export.

Timestamps are modelled as natural numbers, SQLite INTEGER columns as `Int`
and REAL columns as `ℚ`.  JavaScript "falsy or" on option-of-string values
is modelled explicitly (`jsOrStr`), since `parseInt(x) || d` and
`header || query` drive several behaviours the claims are about.
-/

/-- A row of the `users` table (columns from `CREATE TABLE users`). -/
structure UserRow where
  id : Nat
  username : String
  password_hash : String
  created_at : String
deriving DecidableEq, Repr

/-- A row of the `history` table (columns from `CREATE TABLE history`). -/
structure HistoryRow where
  id : Nat
  username : String
  filename : String
  processed_at : Nat
  eco_points_earned : Int
  items_recycled : Int
  carbon_saved_kg : ℚ
deriving DecidableEq, Repr

/-- JWT claim set as produced by `jwt.sign({id, username}, …, {expiresIn: '7d'})`:
the library adds `iat` (issue time) and `exp = iat + 7 days`. -/
structure TokenPayload where
  id : Nat
  username : String
  iat : Nat
  exp : Nat
deriving DecidableEq, Repr

/-- A structurally well-formed JWT: a claim set together with the secret it
was signed with (the MAC is modelled as knowledge of the signing secret). -/
structure SignedToken where
  payload : TokenPayload
  signedWith : String
deriving DecidableEq, Repr

/-- JSON values appearing in responses.  A JWT appears on the wire as an
opaque string; it is kept structured here (`tok`). -/
inductive Json where
  | str : String → Json
  | int : Int → Json
  | rat : ℚ → Json
  | tok : SignedToken → Json
  | obj : List (String × Json) → Json
  | arr : List Json → Json

/-- An HTTP response: status code plus JSON body. -/
structure Response where
  status : Nat
  body : Json

/-- The database state: the two tables plus the AUTOINCREMENT counters. -/
structure Store where
  users : List UserRow
  history : List HistoryRow
  nextUserId : Nat
  nextHistoryId : Nat
deriving DecidableEq, Repr

/-- JavaScript `a || b` on possibly-absent strings: `undefined` and `""` are
falsy. -/
def jsOrStr (a b : Option String) : Option String :=
  match a with
  | none => b
  | some s => if s = "" then b else some s

/-- `SELECT … FROM users WHERE username = ?` (usernames are UNIQUE; the first
matching row is the row). -/
def findUser (users : List UserRow) (username : String) : Option UserRow :=
  users.find? (fun r => r.username = username)

/-- Helper `safeUser` from server.js: the client-facing projection of a user
row — only `id`, `username`, `created_at`. -/
def safeUser (row : UserRow) : Json :=
  Json.obj [("id", Json.int row.id), ("username", Json.str row.username),
            ("created_at", Json.str row.created_at)]

/-- `SELECT … FROM history WHERE username = ?` — all events of one user, in
table order. -/
def historyFor (s : Store) (username : String) : List HistoryRow :=
  s.history.filter (fun e => e.username = username)

/-- The three column sums of `getUserAggregates`:
`COALESCE(SUM(eco_points_earned),0)`, `COALESCE(SUM(items_recycled),0)`,
`COALESCE(SUM(carbon_saved_kg),0)` over one user's history rows. -/
def getUserAggregates (s : Store) (username : String) : Int × Int × ℚ :=
  let evs := historyFor s username
  ((evs.map (fun e => e.eco_points_earned)).sum,
   (evs.map (fun e => e.items_recycled)).sum,
   (evs.map (fun e => e.carbon_saved_kg)).sum)

/-- Seven days in seconds: the `expiresIn: '7d'` window. -/
def sevenDays : Nat := 7 * 24 * 60 * 60

/-- `jwt.sign({id, username}, secret, {expiresIn: '7d'})` at time `now`. -/
def jwtSign (id : Nat) (username : String) (secret : String) (now : Nat) :
    SignedToken :=
  { payload := { id := id, username := username, iat := now,
                 exp := now + sevenDays },
    signedWith := secret }

/-- The internally distinguished verification failures. -/
inductive VerifyFailure where
  | missing
  | malformed
  | expired
  | badSignature
deriving DecidableEq, Repr

/-- What arrives after `auth.split(' ')[1]`: either a string that does not
decode as a JWT, or a structurally valid token. -/
inductive TokenBlob where
  | garbled : String → TokenBlob
  | wellFormed : SignedToken → TokenBlob
deriving DecidableEq, Repr

/-- `jwt.verify(token, secret, cb)` at time `now`: signature is checked
first, then expiry; the library rejects exactly when `now ≥ exp`
(`clockTimestamp >= payload.exp`). -/
def jwtVerify (blob : TokenBlob) (secret : String) (now : Nat) :
    Except VerifyFailure TokenPayload :=
  match blob with
  | .garbled _ => .error .malformed
  | .wellFormed t =>
    if t.signedWith ≠ secret then .error .badSignature
    else if t.payload.exp ≤ now then .error .expired
    else .ok t.payload

/-- The `Authorization` header of a request, as the middleware sees it. -/
inductive AuthHeader where
  | notBearer : String → AuthHeader
  | bearer : TokenBlob → AuthHeader
deriving DecidableEq, Repr

/-- Body `{ error: msg }`. -/
def errBody (msg : String) : Json :=
  Json.obj [("error", Json.str msg)]

/-- The `authenticate` middleware: absent or non-`Bearer` header →
401 `Missing token.`; any `jwt.verify` failure → 401 `Invalid token.`;
otherwise the payload is attached to the request. -/
def authenticate (h : Option AuthHeader) (secret : String) (now : Nat) :
    Except Response TokenPayload :=
  match h with
  | none => .error ⟨401, errBody "Missing token."⟩
  | some (.notBearer _) => .error ⟨401, errBody "Missing token."⟩
  | some (.bearer blob) =>
    match jwtVerify blob secret now with
    | .error _ => .error ⟨401, errBody "Invalid token."⟩
    | .ok p => .ok p

/-- The register-time validity check, in the order the source writes it:
`!username || !password || username.length < 3 || password.length < 6`. -/
def registerInvalid (username password : Option String) : Bool :=
  match username, password with
  | none, _ => true
  | _, none => true
  | some u, some p => u = "" || p = "" || u.length < 3 || p.length < 6

/-- `user = { id: this.lastID, username }` serialized by `safeUser`: its
`created_at` is `undefined` and hence absent from the JSON. -/
def registerUserJson (id : Nat) (username : String) : Json :=
  Json.obj [("id", Json.int id), ("username", Json.str username)]

/-- `POST /api/register`: validate, hash, insert (UNIQUE → 409), sign a
token, answer.  `hash` stands for `bcrypt.hash(password, 10)` and `nowStr`
for the row's `CURRENT_TIMESTAMP` default. -/
def apiRegister (s : Store) (username password : Option String)
    (hash : String → String) (secret : String) (now : Nat) (nowStr : String) :
    Response × Store :=
  if registerInvalid username password then
    (⟨400, errBody "Username must be 3+ chars and password 6+ chars."⟩, s)
  else
    match username, password with
    | some u, some p =>
      if (findUser s.users u).isSome then
        (⟨409, errBody "Username already exists."⟩, s)
      else
        let row : UserRow :=
          { id := s.nextUserId, username := u, password_hash := hash p,
            created_at := nowStr }
        let token := jwtSign row.id u secret now
        (⟨200, Json.obj [("message", Json.str "Registered"),
                          ("token", Json.tok token),
                          ("user", registerUserJson row.id u)]⟩,
         { s with users := s.users ++ [row], nextUserId := s.nextUserId + 1 })
    | _, _ => (⟨400, errBody "Username must be 3+ chars and password 6+ chars."⟩, s)

/-- `POST /api/login`: missing fields → 400; unknown username → 401; hash
mismatch → 401; otherwise sign a token and answer.  `compare` stands for
`bcrypt.compare`. -/
def apiLogin (s : Store) (username password : Option String)
    (compare : String → String → Bool) (secret : String) (now : Nat) :
    Response :=
  match username, password with
  | none, _ => ⟨400, errBody "Username & password required."⟩
  | _, none => ⟨400, errBody "Username & password required."⟩
  | some u, some p =>
    if u = "" ∨ p = "" then ⟨400, errBody "Username & password required."⟩
    else
      match findUser s.users u with
      | none => ⟨401, errBody "Invalid credentials."⟩
      | some row =>
        if compare p row.password_hash then
          ⟨200, Json.obj [("message", Json.str "Logged in"),
                           ("token", Json.tok (jwtSign row.id row.username secret now)),
                           ("user", safeUser row)]⟩
        else ⟨401, errBody "Invalid credentials."⟩

/-- `GET /api/me`: just echoes the authenticated claims. -/
def apiMe (h : Option AuthHeader) (secret : String) (now : Nat) : Response :=
  match authenticate h secret now with
  | .error r => r
  | .ok p => ⟨200, Json.obj [("user", Json.obj [("id", Json.int p.id),
                                ("username", Json.str p.username)])]⟩

/-- A row of `SELECT id, username, created_at FROM users` as JSON. -/
def selectedUserJson (r : UserRow) : Json :=
  Json.obj [("id", Json.int r.id), ("username", Json.str r.username),
            ("created_at", Json.str r.created_at)]

/-- The profile output object of `handleGetUserProfile`. -/
def profileBody (u : UserRow) (agg : Int × Int × ℚ) : Json :=
  Json.obj [("id", Json.int u.id), ("username", Json.str u.username),
            ("created_at", Json.str u.created_at),
            ("eco_points", Json.int agg.1),
            ("items_recycled", Json.int agg.2.1),
            ("carbon_saved_kg", Json.rat agg.2.2)]

/-- `GET /user/:username` and `GET /api/user/:username` (same handler). -/
def handleGetUserProfile (s : Store) (username : String) : Response :=
  if username = "" then ⟨400, errBody "Missing username"⟩
  else
    match findUser s.users username with
    | none => ⟨404, errBody "User not found"⟩
    | some u => ⟨200, profileBody u (getUserAggregates s username)⟩

/-- `ORDER BY processed_at DESC`: most recent first. -/
def moreRecent (a b : HistoryRow) : Prop := b.processed_at ≤ a.processed_at

instance : DecidableRel moreRecent := fun a b =>
  Nat.decLe b.processed_at a.processed_at

instance : IsTotal HistoryRow moreRecent :=
  ⟨fun a b => Nat.le_total b.processed_at a.processed_at⟩

instance : IsTrans HistoryRow moreRecent :=
  ⟨fun _ _ _ h1 h2 => Nat.le_trans h2 h1⟩

/-- `parseInt(req.query.limit, 10) || 50`: an absent or non-numeric limit is
`none`, and a parsed `0` is falsy, so both fall back to 50. -/
def effectiveLimit (p : Option Int) : Int :=
  match p with
  | none => 50
  | some n => if n = 0 then 50 else n

/-- The rows of `SELECT … FROM history WHERE username = ? ORDER BY
processed_at DESC LIMIT ?`.  A negative SQLite LIMIT means no limit. -/
def listFor (s : Store) (username : String) (limitParam : Option Int) :
    List HistoryRow :=
  let rows := List.insertionSort moreRecent (historyFor s username)
  let lim := effectiveLimit limitParam
  if lim < 0 then rows else rows.take lim.toNat

/-- One history row as it is serialized in listing responses (the SELECT
projects exactly these five columns). -/
def historyEventJson (e : HistoryRow) : Json :=
  Json.obj [("filename", Json.str e.filename),
            ("processed_at", Json.int e.processed_at),
            ("eco_points_earned", Json.int e.eco_points_earned),
            ("items_recycled", Json.int e.items_recycled),
            ("carbon_saved_kg", Json.rat e.carbon_saved_kg)]

/-- `GET /user/:username/history` and `GET /api/user/:username/history`. -/
def handleGetUserHistory (s : Store) (username : String)
    (limitParam : Option Int) : Response :=
  ⟨200, Json.obj [("history",
      Json.arr ((listFor s username limitParam).map historyEventJson))]⟩

/-- One leaderboard row: `GROUP BY username` with the three column sums. -/
structure LeaderboardEntry where
  username : String
  eco_points : Int
  items_recycled : Int
  carbon_saved_kg : ℚ
deriving DecidableEq, Repr

/-- The distinct usernames occurring in the history table (the groups of
`GROUP BY username`). -/
def leaderboardUsernames (s : Store) : List String :=
  (s.history.map (fun e => e.username)).dedup

/-- The aggregated row of one group. -/
def mkLeaderboardEntry (s : Store) (u : String) : LeaderboardEntry :=
  let agg := getUserAggregates s u
  { username := u, eco_points := agg.1, items_recycled := agg.2.1,
    carbon_saved_kg := agg.2.2 }

/-- `ORDER BY eco_points DESC`. -/
def lbGE (a b : LeaderboardEntry) : Prop := b.eco_points ≤ a.eco_points

instance : DecidableRel lbGE := fun a b => Int.decLe b.eco_points a.eco_points

instance : IsTotal LeaderboardEntry lbGE :=
  ⟨fun a b => Int.le_total b.eco_points a.eco_points⟩

instance : IsTrans LeaderboardEntry lbGE :=
  ⟨fun _ _ _ h1 h2 => Int.le_trans h2 h1⟩

/-- The rows of the leaderboard query: grouped, summed, ordered by
`eco_points DESC` (ties in an order the engine does not specify; the
embedding fixes a stable one), truncated by `LIMIT 25`. -/
def leaderboardEntries (s : Store) : List LeaderboardEntry :=
  (List.insertionSort lbGE
      ((leaderboardUsernames s).map (mkLeaderboardEntry s))).take 25

/-- One leaderboard row as JSON. -/
def lbEntryJson (e : LeaderboardEntry) : Json :=
  Json.obj [("username", Json.str e.username),
            ("eco_points", Json.int e.eco_points),
            ("items_recycled", Json.int e.items_recycled),
            ("carbon_saved_kg", Json.rat e.carbon_saved_kg)]

/-- `GET /leaderboard` and `GET /api/leaderboard` (same handler). -/
def handleLeaderboard (s : Store) : Response :=
  ⟨200, Json.obj [("leaderboard",
      Json.arr ((leaderboardEntries s).map lbEntryJson))]⟩

/-- `ADMIN_SECRET = process.env.ADMIN_SECRET || 'change_this_admin_secret'`:
an unset or empty environment value falls back to the default. -/
def adminSecretOf (env : Option String) : String :=
  match env with
  | none => "change_this_admin_secret"
  | some s => if s = "" then "change_this_admin_secret" else s

/-- `adminAuth` middleware: the presented secret is
`req.headers['x-admin-secret'] || req.query.admin_secret`; a falsy value or
one different from `ADMIN_SECRET` yields 401. -/
def adminAuth (adminSecret : String) (header q : Option String) :
    Except Response Unit :=
  match jsOrStr header q with
  | none => .error ⟨401, errBody "Admin auth required"⟩
  | some t =>
    if t = "" then .error ⟨401, errBody "Admin auth required"⟩
    else if t = adminSecret then .ok ()
    else .error ⟨401, errBody "Admin auth required"⟩

/-- SQLite `LIKE '%search%'` on usernames (LIKE is case-insensitive for
ASCII). -/
def likeContains (pat s : String) : Bool :=
  decide ((pat.toList.map Char.toLower) <:+: (s.toList.map Char.toLower))

/-- `ORDER BY id DESC`. -/
def byIdDesc (a b : UserRow) : Prop := b.id ≤ a.id

instance : DecidableRel byIdDesc := fun a b => Nat.decLe b.id a.id

instance : IsTotal UserRow byIdDesc := ⟨fun a b => Nat.le_total b.id a.id⟩

instance : IsTrans UserRow byIdDesc := ⟨fun _ _ _ h1 h2 => Nat.le_trans h2 h1⟩

/-- `ORDER BY id` (ascending, CSV export). -/
def byIdAsc (a b : UserRow) : Prop := a.id ≤ b.id

instance : DecidableRel byIdAsc := fun a b => Nat.decLe a.id b.id

instance : IsTotal UserRow byIdAsc := ⟨fun a b => Nat.le_total a.id b.id⟩

instance : IsTrans UserRow byIdAsc := ⟨fun _ _ _ h1 h2 => Nat.le_trans h1 h2⟩

/-- The rows of the `/admin/users` query: optional `LIKE` filter, `ORDER BY
id DESC`, `LIMIT ? OFFSET ?` with `parseInt(…) || 100` and
`parseInt(…) || 0` defaults. -/
def adminUsersRows (s : Store) (limitP offsetP : Option Int)
    (search : String) : List UserRow :=
  let base := if search = "" then s.users
              else s.users.filter (fun r => likeContains search r.username)
  let sorted := List.insertionSort byIdDesc base
  let off : Int := match offsetP with
                   | none => 0
                   | some n => if n = 0 then 0 else n
  let lim : Int := match limitP with
                   | none => 100
                   | some n => if n = 0 then 100 else n
  let afterOff := sorted.drop off.toNat
  if lim < 0 then afterOff else afterOff.take lim.toNat

/-- `GET /admin/users`. -/
def adminUsers (s : Store) (adminSecret : String) (header q : Option String)
    (limitP offsetP : Option Int) (search : String) : Response :=
  match adminAuth adminSecret header q with
  | .error r => r
  | .ok _ => ⟨200, Json.obj [("users",
      Json.arr ((adminUsersRows s limitP offsetP search).map selectedUserJson))]⟩

/-- `GET /admin/user/:id`: `parseInt(req.params.id)` with `!id` rejecting
both a non-number and 0; then user by id, then that user's history (most
recent first, `LIMIT 500`). -/
def adminUserDetail (s : Store) (adminSecret : String)
    (header q : Option String) (idP : Option Int) : Response :=
  match adminAuth adminSecret header q with
  | .error r => r
  | .ok _ =>
    match idP with
    | none => ⟨400, errBody "Invalid id"⟩
    | some i =>
      if i = 0 then ⟨400, errBody "Invalid id"⟩
      else
        match s.users.find? (fun r => (r.id : Int) = i) with
        | none => ⟨404, errBody "Not found"⟩
        | some row =>
          ⟨200, Json.obj [("user", selectedUserJson row),
            ("history", Json.arr
              (((List.insertionSort moreRecent (historyFor s row.username)).take
                  500).map historyEventJson))]⟩

/-- CSV escaping of a username: `replace(/"/g, '""')`. -/
def csvEscape (u : String) : String :=
  u.replace "\"" "\"\""

/-- One CSV data line. -/
def csvLine (r : UserRow) : String :=
  toString r.id ++ ",\"" ++ csvEscape r.username ++ "\"," ++ r.created_at ++ "\n"

/-- `GET /admin/export/users.csv` (after `adminAuth`): header line then one
line per user, `ORDER BY id`. -/
def usersCsv (s : Store) : String :=
  "id,username,created_at\n" ++
    String.join ((List.insertionSort byIdAsc s.users).map csvLine)

/-- `POST /api/history`: authenticate, take the body fields with their
destructuring defaults, insert a row, answer `{insertedId}`. -/
def apiHistory (s : Store) (h : Option AuthHeader) (secret : String)
    (now : Nat) (filename : Option String) (eco items : Option Int)
    (carbon : Option ℚ) (procAt : Nat) : Response × Store :=
  match authenticate h secret now with
  | .error r => (r, s)
  | .ok p =>
    if p.username = "" then (⟨401, errBody "Unauthorized"⟩, s)
    else
      let row : HistoryRow :=
        { id := s.nextHistoryId, username := p.username,
          filename := match filename with
                      | none => "unknown"
                      | some f => if f = "" then "unknown" else f,
          processed_at := procAt,
          eco_points_earned := eco.getD 0,
          items_recycled := items.getD 0,
          carbon_saved_kg := carbon.getD 0 }
      (⟨200, Json.obj [("insertedId", Json.int row.id)]⟩,
       { s with history := s.history ++ [row],
                nextHistoryId := s.nextHistoryId + 1 })

/-- A user row with its password hash erased (same public columns). -/
def scrubUser (r : UserRow) : UserRow :=
  { r with password_hash := "" }

/-- The store with every password hash erased. -/
def scrubStore (s : Store) : Store :=
  { s with users := s.users.map scrubUser }

mutual

/-- Whether the key `k` occurs anywhere in a JSON value (any nesting
depth). -/
def Json.hasKey (k : String) : Json → Bool
  | .str _ => false
  | .int _ => false
  | .rat _ => false
  | .tok _ => false
  | .obj fs => Json.hasKeyFields k fs
  | .arr es => Json.hasKeyElems k es

/-- `hasKey` over the field list of an object. -/
def Json.hasKeyFields (k : String) : List (String × Json) → Bool
  | [] => false
  | (k1, v) :: rest =>
    k1 = k || Json.hasKey k v || Json.hasKeyFields k rest

/-- `hasKey` over the elements of an array. -/
def Json.hasKeyElems (k : String) : List Json → Bool
  | [] => false
  | e :: rest => Json.hasKey k e || Json.hasKeyElems k rest

end

/-! ## Concrete fixtures used by witnesses and counterexamples -/

/-- A registered user. -/
def demoUser : UserRow :=
  { id := 1, username := "alice", password_hash := "bcrypt$hash1",
    created_at := "2024-01-01" }

/-- A second registered user. -/
def demoUser2 : UserRow :=
  { id := 2, username := "bob", password_hash := "bcrypt$hash2",
    created_at := "2024-01-02" }

/-- A recycling event of `alice`. -/
def demoEvent1 : HistoryRow :=
  { id := 1, username := "alice", filename := "bottle.jpg",
    processed_at := 10, eco_points_earned := 10, items_recycled := 1,
    carbon_saved_kg := 1/2 }

/-- A later recycling event of `alice`. -/
def demoEvent2 : HistoryRow :=
  { id := 2, username := "alice", filename := "can.jpg",
    processed_at := 20, eco_points_earned := 5, items_recycled := 2,
    carbon_saved_kg := 3/2 }

/-- Two users, two events of `alice`. -/
def demoStore : Store :=
  { users := [demoUser, demoUser2], history := [demoEvent1, demoEvent2],
    nextUserId := 3, nextHistoryId := 3 }

/-- Two users, no events. -/
def emptyHistStore : Store :=
  { users := [demoUser, demoUser2], history := [], nextUserId := 3,
    nextHistoryId := 1 }

/-- Twenty-six distinct users with one event each (eco points `0..25`). -/
def manyUsersStore : Store :=
  { users := [],
    history := (List.range 26).map (fun i =>
      { id := i + 1, username := "u" ++ toString i, filename := "f.jpg",
        processed_at := i, eco_points_earned := (i : Int),
        items_recycled := 1, carbon_saved_kg := 0 }),
    nextUserId := 1, nextHistoryId := 27 }

/-- A token signed for `alice` with secret `jwtsecret` at time 0. -/
def demoToken : SignedToken := jwtSign 1 "alice" "jwtsecret" 0

/-! ## Helper lemmas -/

/-- `hasKeyElems` of a mapped list vanishes when it vanishes pointwise. -/
theorem hasKeyElems_map_eq_false {α : Type} (k : String) (f : α → Json)
    (l : List α) (hf : ∀ a, (f a).hasKey k = false) :
    Json.hasKeyElems k (l.map f) = false := by
  induction l with
  | nil => rfl
  | cons a t ih => simp [Json.hasKeyElems, hf a, ih]

/-- `errBody` never carries a `password_hash` key. -/
theorem hasKey_errBody (m : String) :
    (errBody m).hasKey "password_hash" = false := by
  simp [errBody, Json.hasKey, Json.hasKeyFields]

/-! ## Claims -/

/-- C2: a token issued at registration or login carries `exp = iat + 7 days`
(604800 s), and verification with the issuing secret succeeds at every
instant strictly before `exp` and fails with the `expired` failure at `exp`
and afterwards — never default-allowing an expired token. -/
theorem C2_token_seven_day_expiry (id : Nat) (u secret : String) (t0 t : Nat) :
    (jwtSign id u secret t0).payload.exp =
      (jwtSign id u secret t0).payload.iat + sevenDays
    ∧ sevenDays = 604800
    ∧ jwtVerify (.wellFormed (jwtSign id u secret t0)) secret t =
        (if t0 + sevenDays ≤ t then .error .expired
         else .ok { id := id, username := u, iat := t0,
                    exp := t0 + sevenDays }) := by
  refine ⟨rfl, rfl, ?_⟩
  simp [jwtVerify, jwtSign]

/-- C3 is refuted at a concrete input: a request with no token and a request
with a malformed token both get status 401, but the response bodies differ
(`Missing token.` vs `Invalid token.`), so the four token-failure subtypes
do not produce one identical response body. -/
theorem C3_counterexample :
    authenticate none "jwtsecret" 100 = .error ⟨401, errBody "Missing token."⟩
    ∧ authenticate (some (.bearer (.garbled "not-a-jwt"))) "jwtsecret" 100 =
        .error ⟨401, errBody "Invalid token."⟩
    ∧ errBody "Missing token." ≠ errBody "Invalid token." := by
  refine ⟨rfl, rfl, ?_⟩
  simp [errBody]

/-- C3 (amended): every token-failure response from `authenticate` has
status 401, and the three `jwt.verify` failures (malformed, expired, bad
signature) share one identical body, but a missing or non-Bearer header
yields a different body, so the caller can tell absence from invalidity. -/
theorem C3_amended (secret : String) (now : Nat) (raw : String)
    (t : SignedToken) (h : Option AuthHeader) :
    authenticate none secret now = .error ⟨401, errBody "Missing token."⟩
    ∧ authenticate (some (.notBearer raw)) secret now =
        .error ⟨401, errBody "Missing token."⟩
    ∧ authenticate (some (.bearer (.garbled raw))) secret now =
        .error ⟨401, errBody "Invalid token."⟩
    ∧ (t.signedWith ≠ secret →
        authenticate (some (.bearer (.wellFormed t))) secret now =
          .error ⟨401, errBody "Invalid token."⟩)
    ∧ (t.payload.exp ≤ now →
        authenticate (some (.bearer (.wellFormed t))) secret now =
          .error ⟨401, errBody "Invalid token."⟩)
    ∧ (∀ r : Response, authenticate h secret now = .error r →
        r.status = 401) := by
  refine ⟨rfl, rfl, rfl, ?_, ?_, ?_⟩
  · intro hs
    simp [authenticate, jwtVerify, hs]
  · intro he
    by_cases hs : t.signedWith = secret
    · simp [authenticate, jwtVerify, hs, he]
    · simp [authenticate, jwtVerify, hs]
  · intro r hr
    cases h with
    | none =>
      simp only [authenticate] at hr
      cases hr
      rfl
    | some a =>
      cases a with
      | notBearer s =>
        simp only [authenticate] at hr
        cases hr
        rfl
      | bearer blob =>
        simp only [authenticate] at hr
        cases hjv : jwtVerify blob secret now with
        | error e =>
          rw [hjv] at hr
          cases hr
          rfl
        | ok p =>
          rw [hjv] at hr
          cases hr

/-- Witness for C3 (amended): concrete bad-signature and expired tokens get
the `Invalid token.` 401 body, and a concrete missing-token response has
status 401. -/
theorem C3_amended_witness :
    authenticate (some (.bearer (.wellFormed
        ⟨⟨1, "alice", 0, 604800⟩, "other"⟩))) "jwtsecret" 700000 =
      .error ⟨401, errBody "Invalid token."⟩
    ∧ authenticate (some (.bearer (.wellFormed
        ⟨⟨1, "alice", 0, 604800⟩, "jwtsecret"⟩))) "jwtsecret" 604800 =
      .error ⟨401, errBody "Invalid token."⟩
    ∧ (⟨401, errBody "Missing token."⟩ : Response).status = 401 := by
  refine ⟨?_, ?_, ?_⟩
  · exact (C3_amended "jwtsecret" 700000 "x"
      ⟨⟨1, "alice", 0, 604800⟩, "other"⟩ none).2.2.2.1 (by decide)
  · exact (C3_amended "jwtsecret" 604800 "x"
      ⟨⟨1, "alice", 0, 604800⟩, "jwtsecret"⟩ none).2.2.2.2.1 (by decide)
  · exact (C3_amended "jwtsecret" 700000 "x"
      ⟨⟨1, "alice", 0, 604800⟩, "other"⟩ none).2.2.2.2.2 _ rfl

/-- C1: for an existing user, the profile read answers 200 with the three
aggregate fields equal to the element-wise sums over that user's history
events, and a user with no history events gets the zero summary, not an
error. -/
theorem C1_profile_sums (s : Store) (username : String) (u : UserRow)
    (hne : username ≠ "") (hu : findUser s.users username = some u) :
    handleGetUserProfile s username =
      ⟨200, profileBody u
        (((historyFor s username).map (fun e => e.eco_points_earned)).sum,
         ((historyFor s username).map (fun e => e.items_recycled)).sum,
         ((historyFor s username).map (fun e => e.carbon_saved_kg)).sum)⟩
    ∧ (historyFor s username = [] →
        handleGetUserProfile s username = ⟨200, profileBody u (0, 0, 0)⟩) := by
  constructor
  · simp [handleGetUserProfile, hne, hu, getUserAggregates]
  · intro h0
    simp [handleGetUserProfile, hne, hu, getUserAggregates, h0]

/-- Witness for C1: `alice` with two events gets the summed profile, and
with no events gets the zero summary. -/
theorem C1_profile_sums_witness :
    handleGetUserProfile demoStore "alice" =
      ⟨200, profileBody demoUser (15, 3, 2)⟩
    ∧ handleGetUserProfile emptyHistStore "alice" =
      ⟨200, profileBody demoUser (0, 0, 0)⟩ := by
  constructor
  · have h := (C1_profile_sums demoStore "alice" demoUser (by decide)
      (by decide)).1
    rw [h]
    simp [demoStore, historyFor, demoEvent1, demoEvent2, profileBody]
    norm_num
  · exact (C1_profile_sums emptyHistStore "alice" demoUser (by decide)
      (by decide)).2 (by rfl)

/-- C4: a login with an existing username and a wrong password and a login
with a nonexistent username produce the same response — status 401 with the
same generic `Invalid credentials.` body — so the response does not reveal
whether a username exists. -/
theorem C4_login_no_enumeration (s : Store) (uExist pw uMissing pw2 : String)
    (row : UserRow) (cmp : String → String → Bool) (secret : String)
    (now : Nat) (hue : uExist ≠ "") (hpw : pw ≠ "") (hum : uMissing ≠ "")
    (hpw2 : pw2 ≠ "") (hrow : findUser s.users uExist = some row)
    (hwrong : cmp pw row.password_hash = false)
    (hnf : findUser s.users uMissing = none) :
    apiLogin s (some uExist) (some pw) cmp secret now =
      ⟨401, errBody "Invalid credentials."⟩
    ∧ apiLogin s (some uMissing) (some pw2) cmp secret now =
      ⟨401, errBody "Invalid credentials."⟩
    ∧ apiLogin s (some uExist) (some pw) cmp secret now =
      apiLogin s (some uMissing) (some pw2) cmp secret now := by
  have h1 : apiLogin s (some uExist) (some pw) cmp secret now =
      ⟨401, errBody "Invalid credentials."⟩ := by
    simp [apiLogin, hue, hpw, hrow, hwrong]
  have h2 : apiLogin s (some uMissing) (some pw2) cmp secret now =
      ⟨401, errBody "Invalid credentials."⟩ := by
    simp [apiLogin, hum, hpw2, hnf]
  exact ⟨h1, h2, h1.trans h2.symm⟩

/-- Witness for C4: against the demo store, a wrong password for `alice`
and an unknown username `mallory` yield the identical 401 response. -/
theorem C4_login_no_enumeration_witness :
    apiLogin demoStore (some "alice") (some "wrongpw")
        (fun p h2 => p == h2) "jwtsecret" 0 =
      ⟨401, errBody "Invalid credentials."⟩
    ∧ apiLogin demoStore (some "mallory") (some "whatever")
        (fun p h2 => p == h2) "jwtsecret" 0 =
      ⟨401, errBody "Invalid credentials."⟩ := by
  have h := C4_login_no_enumeration demoStore "alice" "wrongpw" "mallory"
    "whatever" demoUser (fun p h2 => p == h2) "jwtsecret" 0 (by decide)
    (by decide) (by decide) (by decide) (by decide) (by decide) (by decide)
  exact ⟨h.1, h.2.1⟩

/-- C5 is refuted at a concrete input: with 26 usernames each having one
history event, the leaderboard holds only 25 entries, so the username with
the lowest score (`u0`) has an event but no entry — "exactly one entry per
username that has at least one history event" fails. -/
theorem C5_counterexample :
    (leaderboardEntries manyUsersStore).length = 25
    ∧ "u0" ∈ manyUsersStore.history.map (fun e => e.username)
    ∧ "u0" ∉ (leaderboardEntries manyUsersStore).map (fun e => e.username) := by
  refine ⟨by decide, by decide, by decide⟩

/-- C5 (amended): the leaderboard has at most 25 entries, at most one entry
per username, every entry belongs to a username with at least one history
event and carries that username's three element-wise sums, and the sequence
is sorted by eco_points descending; when at most 25 usernames have events,
every such username gets exactly one entry. -/
theorem C5_amended (s : Store) :
    (leaderboardEntries s).length ≤ 25
    ∧ ((leaderboardEntries s).map (fun e => e.username)).Nodup
    ∧ (∀ e ∈ leaderboardEntries s,
        (∃ ev ∈ s.history, ev.username = e.username)
        ∧ e.eco_points =
            ((historyFor s e.username).map (fun ev => ev.eco_points_earned)).sum
        ∧ e.items_recycled =
            ((historyFor s e.username).map (fun ev => ev.items_recycled)).sum
        ∧ e.carbon_saved_kg =
            ((historyFor s e.username).map (fun ev => ev.carbon_saved_kg)).sum)
    ∧ List.Sorted (fun a b : LeaderboardEntry => b.eco_points ≤ a.eco_points)
        (leaderboardEntries s)
    ∧ ((leaderboardUsernames s).length ≤ 25 →
        ∀ uu ∈ leaderboardUsernames s,
          ∃ e ∈ leaderboardEntries s, e.username = uu) := by
  have hperm : (List.insertionSort lbGE
      ((leaderboardUsernames s).map (mkLeaderboardEntry s))).Perm
      ((leaderboardUsernames s).map (mkLeaderboardEntry s)) :=
    List.perm_insertionSort lbGE _
  have husr : (((leaderboardUsernames s).map (mkLeaderboardEntry s)).map
      (fun e => e.username)) = leaderboardUsernames s := by
    rw [List.map_map]
    have hcomp : ((fun e : LeaderboardEntry => e.username) ∘
        mkLeaderboardEntry s) = id := by
      funext u; rfl
    rw [hcomp, List.map_id]
  refine ⟨List.length_take_le _ _, ?_, ?_, ?_, ?_⟩
  · have h1 : ((List.insertionSort lbGE
        ((leaderboardUsernames s).map (mkLeaderboardEntry s))).map
        (fun e => e.username)).Nodup := by
      have hp := hperm.map (fun e : LeaderboardEntry => e.username)
      rw [husr] at hp
      exact hp.symm.nodup (List.nodup_dedup _)
    have h2 : ((leaderboardEntries s).map (fun e => e.username)) =
        ((List.insertionSort lbGE
          ((leaderboardUsernames s).map (mkLeaderboardEntry s))).map
          (fun e => e.username)).take 25 := by
      rw [leaderboardEntries, List.map_take]
    rw [h2]
    exact h1.sublist (List.take_sublist _ _)
  · intro e he
    have he2 : e ∈ List.insertionSort lbGE
        ((leaderboardUsernames s).map (mkLeaderboardEntry s)) :=
      List.mem_of_mem_take he
    rw [List.mem_insertionSort] at he2
    obtain ⟨u, hu, rfl⟩ := List.mem_map.mp he2
    have hu2 : u ∈ s.history.map (fun e => e.username) :=
      List.mem_dedup.mp hu
    obtain ⟨ev, hev, hevu⟩ := List.mem_map.mp hu2
    exact ⟨⟨ev, hev, hevu⟩, rfl, rfl, rfl⟩
  · have hs : List.Sorted lbGE (List.insertionSort lbGE
        ((leaderboardUsernames s).map (mkLeaderboardEntry s))) :=
      List.sorted_insertionSort lbGE _
    exact hs.sublist (List.take_sublist _ _)
  · intro hlen uu huu
    have hlen2 : (List.insertionSort lbGE
        ((leaderboardUsernames s).map (mkLeaderboardEntry s))).length ≤ 25 := by
      rw [hperm.length_eq, List.length_map]
      exact hlen
    have hall : leaderboardEntries s = List.insertionSort lbGE
        ((leaderboardUsernames s).map (mkLeaderboardEntry s)) :=
      List.take_of_length_le hlen2
    refine ⟨mkLeaderboardEntry s uu, ?_, rfl⟩
    rw [hall, List.mem_insertionSort]
    exact List.mem_map_of_mem (mkLeaderboardEntry s) huu

/-- Witness for C5 (amended): in the demo store only `alice` has events, so
the single leaderboard entry carries her sums. -/
theorem C5_amended_witness :
    ∃ e ∈ leaderboardEntries demoStore, e.username = "alice" := by
  have h := (C5_amended demoStore).2.2.2.2
  exact h (by decide) "alice" (by decide)

/-- C6 is refuted at a concrete input: with one stored event for `alice`, a
caller-supplied limit of `0` yields one returned event, not at most zero —
`parseInt(limit) || 50` treats `0` as falsy and falls back to the default. -/
theorem C6_counterexample :
    (listFor demoStore "alice" (some 0)).length = 2
    ∧ ¬ (listFor demoStore "alice" (some 0)).length ≤ 0 := by
  refine ⟨by decide, by decide⟩

/-- C6 (amended): the history listing is ordered by `processed_at`
descending and only holds the named user's events; for a caller-supplied
positive limit it returns at most that many events, and an absent limit, a
limit of `0`, or a non-numeric limit falls back to the default 50. -/
theorem C6_history_listing (s : Store) (username : String)
    (lp : Option Int) :
    List.Sorted (fun a b : HistoryRow => b.processed_at ≤ a.processed_at)
      (listFor s username lp)
    ∧ (∀ e ∈ listFor s username lp, e.username = username)
    ∧ effectiveLimit none = 50
    ∧ effectiveLimit (some 0) = 50
    ∧ (∀ n : Int, 0 < n → lp = some n →
        (listFor s username lp).length ≤ n.toNat)
    ∧ (lp = none → (listFor s username lp).length ≤ 50) := by
  have hsorted : List.Sorted moreRecent
      (List.insertionSort moreRecent (historyFor s username)) :=
    List.sorted_insertionSort moreRecent _
  refine ⟨?_, ?_, rfl, rfl, ?_, ?_⟩
  · rw [listFor]
    split
    · exact hsorted
    · exact hsorted.sublist (List.take_sublist _ _)
  · intro e he
    have he2 : e ∈ List.insertionSort moreRecent (historyFor s username) := by
      rw [listFor] at he
      split at he
      · exact he
      · exact List.mem_of_mem_take he
    rw [List.mem_insertionSort] at he2
    rw [historyFor, List.mem_filter] at he2
    exact of_decide_eq_true he2.2
  · intro n hn hlp
    subst hlp
    have hne : ¬ (n = 0) := by omega
    have heff : effectiveLimit (some n) = n := by
      simp [effectiveLimit, hne]
    rw [listFor]
    simp only [heff]
    have hnn : ¬ (n < 0) := by omega
    simp only [hnn, if_false]
    exact List.length_take_le _ _
  · intro hlp
    subst hlp
    rw [listFor]
    simp only [effectiveLimit]
    norm_num

/-- Witness for C6 (amended): with limit 1 the demo store returns at most
one of `alice`'s two events, and with no limit at most 50. -/
theorem C6_history_listing_witness :
    (listFor demoStore "alice" (some 1)).length ≤ (1 : Int).toNat
    ∧ (listFor demoStore "alice" none).length ≤ 50 := by
  refine ⟨?_, ?_⟩
  · exact (C6_history_listing demoStore "alice" (some 1)).2.2.2.2.1 1
      (by decide) rfl
  · exact (C6_history_listing demoStore "alice" none).2.2.2.2.2 rfl

/-- C7 is refuted at a concrete input: an authenticated
`POST /api/history` whose body carries `eco_points_earned = -5` succeeds and
stores an event with a negative field, making `alice`'s aggregate negative —
the endpoint performs no sign validation. -/
theorem C7_counterexample :
    (apiHistory emptyHistStore (some (.bearer (.wellFormed demoToken)))
        "jwtsecret" 0 (some "trash.jpg") (some (-5)) (some 2) none
        100).1.status = 200
    ∧ (∃ e ∈ (apiHistory emptyHistStore (some (.bearer (.wellFormed demoToken)))
        "jwtsecret" 0 (some "trash.jpg") (some (-5)) (some 2) none
        100).2.history, e.eco_points_earned < 0)
    ∧ (getUserAggregates (apiHistory emptyHistStore
        (some (.bearer (.wellFormed demoToken))) "jwtsecret" 0
        (some "trash.jpg") (some (-5)) (some 2) none 100).2 "alice").1 < 0 := by
  refine ⟨by decide, by decide, by decide⟩

/-- C7 (amended): when every stored history event has non-negative fields,
every per-user aggregate and every leaderboard entry is non-negative, and
`POST /api/history` preserves that invariant whenever the (defaulted)
request-body values are non-negative — but the endpoint itself does not
validate signs. -/
theorem C7_nonneg (s : Store)
    (hfields : ∀ e ∈ s.history, 0 ≤ e.eco_points_earned
      ∧ 0 ≤ e.items_recycled ∧ 0 ≤ e.carbon_saved_kg) :
    (∀ u : String, 0 ≤ (getUserAggregates s u).1
      ∧ 0 ≤ (getUserAggregates s u).2.1 ∧ 0 ≤ (getUserAggregates s u).2.2)
    ∧ (∀ e ∈ leaderboardEntries s, 0 ≤ e.eco_points
      ∧ 0 ≤ e.items_recycled ∧ 0 ≤ e.carbon_saved_kg)
    ∧ (∀ (h : Option AuthHeader) (secret : String) (now : Nat)
        (fn : Option String) (eco items : Option Int) (carbon : Option ℚ)
        (procAt : Nat), 0 ≤ eco.getD 0 → 0 ≤ items.getD 0 →
        0 ≤ carbon.getD 0 →
        ∀ e ∈ (apiHistory s h secret now fn eco items carbon procAt).2.history,
          0 ≤ e.eco_points_earned ∧ 0 ≤ e.items_recycled
          ∧ 0 ≤ e.carbon_saved_kg) := by
  have hmem : ∀ (u : String) (e : HistoryRow), e ∈ historyFor s u →
      e ∈ s.history := by
    intro u e he
    rw [historyFor, List.mem_filter] at he
    exact he.1
  have hagg : ∀ u : String, 0 ≤ (getUserAggregates s u).1
      ∧ 0 ≤ (getUserAggregates s u).2.1
      ∧ 0 ≤ (getUserAggregates s u).2.2 := by
    intro u
    refine ⟨List.sum_nonneg ?_, List.sum_nonneg ?_, List.sum_nonneg ?_⟩
    · intro x hx
      obtain ⟨e, he, rfl⟩ := List.mem_map.mp hx
      exact (hfields e (hmem u e he)).1
    · intro x hx
      obtain ⟨e, he, rfl⟩ := List.mem_map.mp hx
      exact (hfields e (hmem u e he)).2.1
    · intro x hx
      obtain ⟨e, he, rfl⟩ := List.mem_map.mp hx
      exact (hfields e (hmem u e he)).2.2
  refine ⟨hagg, ?_, ?_⟩
  · intro e he
    have he2 : e ∈ List.insertionSort lbGE
        ((leaderboardUsernames s).map (mkLeaderboardEntry s)) :=
      List.mem_of_mem_take he
    rw [List.mem_insertionSort] at he2
    obtain ⟨u, _, rfl⟩ := List.mem_map.mp he2
    exact hagg u
  · intro h secret now fn eco items carbon procAt heco hitems hcarbon e he
    cases hauth : authenticate h secret now with
    | error r =>
      rw [apiHistory.eq_def, hauth] at he
      exact hfields e he
    | ok p =>
      rw [apiHistory.eq_def, hauth] at he
      by_cases hu : p.username = ""
      · simp only [hu, if_true] at he
        exact hfields e he
      · simp only [hu, if_false] at he
        rw [List.mem_append] at he
        cases he with
        | inl hold => exact hfields e hold
        | inr hnew =>
          rw [List.mem_singleton] at hnew
          subst hnew
          exact ⟨heco, hitems, hcarbon⟩

/-- Witness for C7 (amended): the demo store's events are non-negative, so
`alice`'s aggregates are non-negative. -/
theorem C7_nonneg_witness :
    0 ≤ (getUserAggregates demoStore "alice").1
    ∧ 0 ≤ (getUserAggregates demoStore "alice").2.2 := by
  have h := (C7_nonneg demoStore (by
    intro e he
    fin_cases he <;> norm_num [demoEvent1, demoEvent2])).1 "alice"
  exact ⟨h.1, h.2.2⟩

/-- The register validity check fails exactly when the username is missing
or shorter than 3 characters, or the password is missing or shorter than 6
characters (an empty string is both falsy and shorter than the minimum). -/
theorem registerInvalid_eq_true_iff (username password : Option String) :
    registerInvalid username password = true ↔
      (username = none ∨ (∃ u, username = some u ∧ u.length < 3)
       ∨ password = none ∨ (∃ p, password = some p ∧ p.length < 6)) := by
  cases username with
  | none => simp [registerInvalid]
  | some u =>
    cases password with
    | none => simp [registerInvalid]
    | some p =>
      simp only [registerInvalid, Bool.or_eq_true, decide_eq_true_eq]
      constructor
      · rintro (((h | h) | h) | h)
        · refine Or.inr (Or.inl ⟨u, rfl, ?_⟩)
          subst h
          decide
        · refine Or.inr (Or.inr (Or.inr ⟨p, rfl, ?_⟩))
          subst h
          decide
        · exact Or.inr (Or.inl ⟨u, rfl, h⟩)
        · exact Or.inr (Or.inr (Or.inr ⟨p, rfl, h⟩))
      · rintro (h | ⟨u2, hu2, hlen⟩ | h | ⟨p2, hp2, hlen⟩)
        · exact absurd h (by simp)
        · cases hu2
          exact Or.inl (Or.inr hlen)
        · exact absurd h (by simp)
        · cases hp2
          exact Or.inr hlen

/-- C8: `POST /api/register` answers 400 exactly when the username is
missing or shorter than 3 characters or the password is missing or shorter
than 6 characters, and a rejected registration happens before hashing and
inserting: the store is unchanged and the 400 outcome is independent of the
hash function. -/
theorem C8_register_validation (s : Store) (username password : Option String)
    (hash hash2 : String → String) (secret : String) (now : Nat)
    (nowStr : String) :
    ((apiRegister s username password hash secret now nowStr).1.status = 400 ↔
      (username = none ∨ (∃ u, username = some u ∧ u.length < 3)
       ∨ password = none ∨ (∃ p, password = some p ∧ p.length < 6)))
    ∧ ((apiRegister s username password hash secret now nowStr).1.status = 400 →
        (apiRegister s username password hash secret now nowStr).2 = s
        ∧ apiRegister s username password hash secret now nowStr
            = apiRegister s username password hash2 secret now nowStr) := by
  by_cases hb : registerInvalid username password = true
  · have hreg : apiRegister s username password hash secret now nowStr =
        (⟨400, errBody "Username must be 3+ chars and password 6+ chars."⟩, s) := by
      simp [apiRegister, hb]
    have hreg2 : apiRegister s username password hash2 secret now nowStr =
        (⟨400, errBody "Username must be 3+ chars and password 6+ chars."⟩, s) := by
      simp [apiRegister, hb]
    refine ⟨?_, ?_⟩
    · rw [hreg]
      exact iff_of_true rfl ((registerInvalid_eq_true_iff username password).mp hb)
    · intro _
      rw [hreg, hreg2]
      exact ⟨rfl, rfl⟩
  · have hcond : ¬ (username = none ∨ (∃ u, username = some u ∧ u.length < 3)
       ∨ password = none ∨ (∃ p, password = some p ∧ p.length < 6)) :=
      fun hc => hb ((registerInvalid_eq_true_iff username password).mpr hc)
    rw [Bool.not_eq_true] at hb
    cases username with
    | none => simp [registerInvalid] at hb
    | some u =>
      cases password with
      | none => simp [registerInvalid] at hb
      | some p =>
        cases hdup : (findUser s.users u).isSome with
        | true =>
          have hreg : (apiRegister s (some u) (some p) hash secret now
              nowStr).1.status = 409 := by
            simp [apiRegister, hb, hdup]
          refine ⟨?_, ?_⟩
          · rw [hreg]
            exact iff_of_false (by decide) hcond
          · intro h400
            rw [hreg] at h400
            exact absurd h400 (by decide)
        | false =>
          have hreg : (apiRegister s (some u) (some p) hash secret now
              nowStr).1.status = 200 := by
            simp [apiRegister, hb, hdup]
          refine ⟨?_, ?_⟩
          · rw [hreg]
            exact iff_of_false (by decide) hcond
          · intro h400
            rw [hreg] at h400
            exact absurd h400 (by decide)

/-- Witness for C8: registering `ab` (2 chars) is a 400 that leaves the
demo store unchanged, for any hash function. -/
theorem C8_register_validation_witness :
    (apiRegister demoStore (some "ab") (some "longpass") (fun p => p)
        "jwtsecret" 0 "t").1.status = 400
    ∧ (apiRegister demoStore (some "ab") (some "longpass") (fun p => p)
        "jwtsecret" 0 "t").2 = demoStore
    ∧ apiRegister demoStore (some "ab") (some "longpass") (fun p => p)
        "jwtsecret" 0 "t"
      = apiRegister demoStore (some "ab") (some "longpass")
          (fun p => p ++ "x") "jwtsecret" 0 "t" := by
  have h := C8_register_validation demoStore (some "ab") (some "longpass")
    (fun p => p) (fun p => p ++ "x") "jwtsecret" 0 "t"
  have h400 : (apiRegister demoStore (some "ab") (some "longpass")
      (fun p => p) "jwtsecret" 0 "t").1.status = 400 :=
    h.1.mpr (Or.inr (Or.inl ⟨"ab", rfl, by decide⟩))
  exact ⟨h400, (h.2 h400).1, (h.2 h400).2⟩

/-- C9: the configured admin secret is never empty, the admin gate allows a
request exactly when the presented secret — header first, query parameter
as fallback — equals that secret, and any other presented value (for
instance a user session token, which is independent of this channel) or an
absent secret gets the 401 `Admin auth required` response. -/
theorem C9_admin_gate (env : Option String) (header q : Option String) :
    adminSecretOf env ≠ ""
    ∧ (adminAuth (adminSecretOf env) header q = .ok () ↔
        jsOrStr header q = some (adminSecretOf env))
    ∧ (∀ t : String, jsOrStr header q = some t → t ≠ adminSecretOf env →
        adminAuth (adminSecretOf env) header q =
          .error ⟨401, errBody "Admin auth required"⟩)
    ∧ (jsOrStr header q = none →
        adminAuth (adminSecretOf env) header q =
          .error ⟨401, errBody "Admin auth required"⟩) := by
  have hne : adminSecretOf env ≠ "" := by
    cases env with
    | none => decide
    | some s =>
      by_cases hs : s = "" <;> simp [adminSecretOf, hs]
  refine ⟨hne, ?_, ?_, ?_⟩
  · cases hjs : jsOrStr header q with
    | none => simp [adminAuth, hjs]
    | some t =>
      by_cases ht0 : t = ""
      · subst ht0
        simp [adminAuth, hjs]
        exact fun h => hne h.symm
      · by_cases hts : t = adminSecretOf env
        · subst hts
          simp [adminAuth, hjs, ht0]
        · simp [adminAuth, hjs, ht0, hts]
  · intro t hjs2 htne
    by_cases ht0 : t = "" <;> simp [adminAuth, hjs2, ht0, htne]
  · intro hjs0
    simp [adminAuth, hjs0]

/-- Witness for C9: presenting the default secret via the header is
allowed; presenting a JWT-shaped string or nothing is a 401. -/
theorem C9_admin_gate_witness :
    adminAuth (adminSecretOf none) (some "change_this_admin_secret") none =
      .ok ()
    ∧ adminAuth (adminSecretOf none)
        (some "eyJhbGciOiJIUzI1NiJ9.session.token") none =
      .error ⟨401, errBody "Admin auth required"⟩
    ∧ adminAuth (adminSecretOf none) none none =
      .error ⟨401, errBody "Admin auth required"⟩ := by
  refine ⟨?_, ?_, ?_⟩
  · exact (C9_admin_gate none (some "change_this_admin_secret") none).2.1.mpr
      (by decide)
  · exact (C9_admin_gate none (some "eyJhbGciOiJIUzI1NiJ9.session.token")
      none).2.2.1 "eyJhbGciOiJIUzI1NiJ9.session.token" (by decide) (by decide)
  · exact (C9_admin_gate none none none).2.2.2 rfl

/-- `safeUser` output has no `password_hash` key. -/
theorem hasKey_safeUser (r : UserRow) :
    (safeUser r).hasKey "password_hash" = false := by
  simp [safeUser, Json.hasKey, Json.hasKeyFields]

/-- `selectedUserJson` output has no `password_hash` key. -/
theorem hasKey_selectedUserJson (r : UserRow) :
    (selectedUserJson r).hasKey "password_hash" = false := by
  simp [selectedUserJson, Json.hasKey, Json.hasKeyFields]

/-- `registerUserJson` output has no `password_hash` key. -/
theorem hasKey_registerUserJson (id : Nat) (u : String) :
    (registerUserJson id u).hasKey "password_hash" = false := by
  simp [registerUserJson, Json.hasKey, Json.hasKeyFields]

/-- `historyEventJson` output has no `password_hash` key. -/
theorem hasKey_historyEventJson (e : HistoryRow) :
    (historyEventJson e).hasKey "password_hash" = false := by
  simp [historyEventJson, Json.hasKey, Json.hasKeyFields]

/-- `lbEntryJson` output has no `password_hash` key. -/
theorem hasKey_lbEntryJson (e : LeaderboardEntry) :
    (lbEntryJson e).hasKey "password_hash" = false := by
  simp [lbEntryJson, Json.hasKey, Json.hasKeyFields]

/-- `profileBody` output has no `password_hash` key. -/
theorem hasKey_profileBody (u : UserRow) (agg : Int × Int × ℚ) :
    (profileBody u agg).hasKey "password_hash" = false := by
  simp [profileBody, Json.hasKey, Json.hasKeyFields]

/-- Every `authenticate` failure body is one of the two generic error
bodies. -/
theorem authenticate_error_body (h : Option AuthHeader) (secret : String)
    (now : Nat) (r : Response) (hr : authenticate h secret now = .error r) :
    r.body = errBody "Missing token." ∨ r.body = errBody "Invalid token." := by
  cases h with
  | none =>
    simp only [authenticate] at hr
    cases hr
    exact Or.inl rfl
  | some a =>
    cases a with
    | notBearer s =>
      simp only [authenticate] at hr
      cases hr
      exact Or.inl rfl
    | bearer blob =>
      simp only [authenticate] at hr
      cases hjv : jwtVerify blob secret now with
      | error e =>
        rw [hjv] at hr
        cases hr
        exact Or.inr rfl
      | ok p =>
        rw [hjv] at hr
        cases hr

/-- Every `adminAuth` failure is the one generic 401 response. -/
theorem adminAuth_error_body (adminSecret : String) (header q : Option String)
    (r : Response) (hr : adminAuth adminSecret header q = .error r) :
    r = ⟨401, errBody "Admin auth required"⟩ := by
  cases hjs : jsOrStr header q with
  | none =>
    simp only [adminAuth.eq_def, hjs] at hr
    cases hr
    rfl
  | some t =>
    simp only [adminAuth.eq_def, hjs] at hr
    by_cases ht0 : t = ""
    · rw [if_pos ht0] at hr
      cases hr
      rfl
    · rw [if_neg ht0] at hr
      by_cases hts : t = adminSecret
      · rw [if_pos hts] at hr
        cases hr
      · rw [if_neg hts] at hr
        cases hr
        rfl

/-- `orderedInsert` by id commutes with erasing password hashes. -/
theorem orderedInsert_scrub (l : List UserRow) (a : UserRow) :
    List.orderedInsert byIdAsc (scrubUser a) (l.map scrubUser) =
      (List.orderedInsert byIdAsc a l).map scrubUser := by
  induction l with
  | nil => rfl
  | cons b t ih =>
    simp only [List.map_cons, List.orderedInsert]
    by_cases h : byIdAsc a b
    · have h2 : byIdAsc (scrubUser a) (scrubUser b) := h
      rw [if_pos h2, if_pos h]
      simp
    · have h2 : ¬ byIdAsc (scrubUser a) (scrubUser b) := h
      rw [if_neg h2, if_neg h]
      simp [ih]

/-- `insertionSort` by id commutes with erasing password hashes. -/
theorem insertionSort_scrub (l : List UserRow) :
    List.insertionSort byIdAsc (l.map scrubUser) =
      (List.insertionSort byIdAsc l).map scrubUser := by
  induction l with
  | nil => rfl
  | cons a t ih =>
    simp only [List.map_cons, List.insertionSort]
    rw [ih, ← orderedInsert_scrub]

/-- Unfolding equation: `hasKey` on a string leaf. -/
theorem Json.hasKey_str (k s : String) : (Json.str s).hasKey k = false := rfl

/-- Unfolding equation: `hasKey` on an integer leaf. -/
theorem Json.hasKey_int (k : String) (n : Int) :
    (Json.int n).hasKey k = false := rfl

/-- Unfolding equation: `hasKey` on a rational leaf. -/
theorem Json.hasKey_rat (k : String) (x : ℚ) :
    (Json.rat x).hasKey k = false := rfl

/-- Unfolding equation: `hasKey` on a token leaf. -/
theorem Json.hasKey_tok (k : String) (t : SignedToken) :
    (Json.tok t).hasKey k = false := rfl

/-- Unfolding equation: `hasKey` on an object. -/
theorem Json.hasKey_obj (k : String) (fs : List (String × Json)) :
    (Json.obj fs).hasKey k = Json.hasKeyFields k fs := rfl

/-- Unfolding equation: `hasKey` on an array. -/
theorem Json.hasKey_arr (k : String) (es : List Json) :
    (Json.arr es).hasKey k = Json.hasKeyElems k es := rfl

/-- Unfolding equation: `hasKeyFields` on an empty field list. -/
theorem Json.hasKeyFields_nil (k : String) :
    Json.hasKeyFields k [] = false := rfl

/-- Unfolding equation: `hasKeyFields` on a field-list cons. -/
theorem Json.hasKeyFields_cons (k k1 : String) (v : Json)
    (rest : List (String × Json)) :
    Json.hasKeyFields k ((k1, v) :: rest) =
      (k1 = k || v.hasKey k || Json.hasKeyFields k rest) := rfl

/-- C10: no response of any endpoint ever carries a `password_hash` key —
register and login expose only the safe projection, the profile, admin
listing and admin detail bodies are built from `id`/`username`/`created_at`
selections, and the CSV export is unchanged when every password hash is
erased from the store. -/
theorem C10_no_password_leak :
    (∀ (s : Store) (username password : Option String)
        (hash : String → String) (secret : String) (now : Nat)
        (nowStr : String),
      (apiRegister s username password hash secret now
          nowStr).1.body.hasKey "password_hash" = false)
    ∧ (∀ (s : Store) (username password : Option String)
        (cmp : String → String → Bool) (secret : String) (now : Nat),
      (apiLogin s username password cmp secret
          now).body.hasKey "password_hash" = false)
    ∧ (∀ (h : Option AuthHeader) (secret : String) (now : Nat),
      (apiMe h secret now).body.hasKey "password_hash" = false)
    ∧ (∀ (s : Store) (username : String),
      (handleGetUserProfile s username).body.hasKey "password_hash" = false)
    ∧ (∀ (s : Store) (username : String) (lp : Option Int),
      (handleGetUserHistory s username lp).body.hasKey "password_hash" = false)
    ∧ (∀ s : Store,
      (handleLeaderboard s).body.hasKey "password_hash" = false)
    ∧ (∀ (s : Store) (secret : String) (header q : Option String)
        (lp op : Option Int) (search : String),
      (adminUsers s secret header q lp op
          search).body.hasKey "password_hash" = false)
    ∧ (∀ (s : Store) (secret : String) (header q : Option String)
        (idP : Option Int),
      (adminUserDetail s secret header q idP).body.hasKey "password_hash"
        = false)
    ∧ (∀ (s : Store) (h : Option AuthHeader) (secret : String) (now : Nat)
        (fn : Option String) (eco items : Option Int) (carbon : Option ℚ)
        (procAt : Nat),
      (apiHistory s h secret now fn eco items carbon
          procAt).1.body.hasKey "password_hash" = false)
    ∧ (∀ s : Store, usersCsv (scrubStore s) = usersCsv s) := by
  refine ⟨?_, ?_, ?_, ?_, ?_, ?_, ?_, ?_, ?_, ?_⟩
  · intro s username password hash secret now nowStr
    by_cases hb : registerInvalid username password = true
    · simp [apiRegister, hb, hasKey_errBody]
    · rw [Bool.not_eq_true] at hb
      cases username with
      | none => simp [registerInvalid] at hb
      | some u =>
        cases password with
        | none => simp [registerInvalid] at hb
        | some p =>
          cases hdup : (findUser s.users u).isSome with
          | true => simp [apiRegister, hb, hdup, hasKey_errBody]
          | false =>
            simp [apiRegister, hb, hdup, Json.hasKey_obj,
              Json.hasKeyFields_cons, Json.hasKeyFields_nil,
              Json.hasKey_str, Json.hasKey_tok, hasKey_registerUserJson]
  · intro s username password cmp secret now
    cases username with
    | none => simp [apiLogin, hasKey_errBody]
    | some u =>
      cases password with
      | none => simp [apiLogin, hasKey_errBody]
      | some p =>
        by_cases hup : u = "" ∨ p = ""
        · simp [apiLogin, hup, hasKey_errBody]
        · cases hfind : findUser s.users u with
          | none => simp [apiLogin, hup, hfind, hasKey_errBody]
          | some row =>
            cases hcmp : cmp p row.password_hash with
            | false => simp [apiLogin, hup, hfind, hcmp, hasKey_errBody]
            | true =>
              simp [apiLogin, hup, hfind, hcmp, Json.hasKey_obj,
                Json.hasKeyFields_cons, Json.hasKeyFields_nil,
                Json.hasKey_str, Json.hasKey_tok, hasKey_safeUser]
  · intro h secret now
    cases hauth : authenticate h secret now with
    | error r =>
      have hb := authenticate_error_body h secret now r hauth
      cases hb with
      | inl h1 => simp [apiMe, hauth, h1, hasKey_errBody]
      | inr h1 => simp [apiMe, hauth, h1, hasKey_errBody]
    | ok p =>
      simp [apiMe, hauth, Json.hasKey, Json.hasKeyFields]
  · intro s username
    by_cases husr : username = ""
    · simp [handleGetUserProfile, husr, hasKey_errBody]
    · cases hfind : findUser s.users username with
      | none => simp [handleGetUserProfile, husr, hfind, hasKey_errBody]
      | some u =>
        simp [handleGetUserProfile, husr, hfind, hasKey_profileBody]
  · intro s username lp
    simp [handleGetUserHistory, Json.hasKey, Json.hasKeyFields,
      hasKeyElems_map_eq_false _ _ _ hasKey_historyEventJson]
  · intro s
    simp [handleLeaderboard, Json.hasKey, Json.hasKeyFields,
      hasKeyElems_map_eq_false _ _ _ hasKey_lbEntryJson]
  · intro s secret header q lp op search
    cases hauth : adminAuth secret header q with
    | error r =>
      have hb := adminAuth_error_body secret header q r hauth
      simp [adminUsers, hauth, hb, hasKey_errBody]
    | ok u =>
      simp [adminUsers, hauth, Json.hasKey, Json.hasKeyFields,
        hasKeyElems_map_eq_false _ _ _ hasKey_selectedUserJson]
  · intro s secret header q idP
    cases hauth : adminAuth secret header q with
    | error r =>
      have hb := adminAuth_error_body secret header q r hauth
      simp [adminUserDetail, hauth, hb, hasKey_errBody]
    | ok u =>
      cases idP with
      | none => simp [adminUserDetail, hauth, hasKey_errBody]
      | some i =>
        by_cases hi : i = 0
        · simp [adminUserDetail, hauth, hi, hasKey_errBody]
        · cases hfind : s.users.find? (fun r => (r.id : Int) = i) with
          | none => simp [adminUserDetail, hauth, hi, hfind, hasKey_errBody]
          | some row =>
            simp [adminUserDetail, hauth, hi, hfind, Json.hasKey_obj,
              Json.hasKeyFields_cons, Json.hasKeyFields_nil, Json.hasKey_arr,
              hasKey_selectedUserJson, ← List.map_take,
              hasKeyElems_map_eq_false _ _ _ hasKey_historyEventJson]
  · intro s h secret now fn eco items carbon procAt
    cases hauth : authenticate h secret now with
    | error r =>
      have hb := authenticate_error_body h secret now r hauth
      cases hb with
      | inl h1 => simp [apiHistory, hauth, h1, hasKey_errBody]
      | inr h1 => simp [apiHistory, hauth, h1, hasKey_errBody]
    | ok p =>
      by_cases hu : p.username = ""
      · simp [apiHistory, hauth, hu, hasKey_errBody]
      · simp [apiHistory, hauth, hu, Json.hasKey, Json.hasKeyFields]
  · intro s
    have husers : (scrubStore s).users = s.users.map scrubUser := rfl
    rw [usersCsv, usersCsv, husers, insertionSort_scrub, List.map_map]
    have hline : (csvLine ∘ scrubUser) = csvLine := by
      funext r
      rfl
    rw [hline]
